import Mathlib

/-!
Verification of the `identity_op` lint (clippy_lints/src/identity_op.rs).

The detector inspects a binary expression and, per operator, checks one or
both operands against an identity value (0, 1, or the width-dependent
all-ones pattern), emitting a diagnostic for each matching side.  The four
collaborators the source calls (`constant_simple`, `cx.tables.expr_ty`,
`is_generated`, `snippet`) together with the diagnostic sink `span_lint` are
modelled as oracle functions carried in a context record; the detector's
output is the list of diagnostics it hands to the sink, wrapped in `Option`
so that the `unreachable!()` panic branch of `check` is observable as `none`.
-/

set_option maxRecDepth 16384

namespace IdentityOpLint

/-- Signed integer types of `rustc::ty::IntTy`. -/
inductive IntTy where
  | isize | i8 | i16 | i32 | i64 | i128
  deriving DecidableEq, Repr

/-- Unsigned integer types of `rustc::ty::UintTy`. -/
inductive UintTy where
  | usize | u8 | u16 | u32 | u64 | u128
  deriving DecidableEq, Repr

/-- Modelled from the spec: the bit width the type-layout query reports for a
signed integer type (`isize` taken at the usual 64-bit pointer width); the
layout code itself is not under src/. -/
def int_bits : IntTy → Nat
  | .isize => 64
  | .i8 => 8
  | .i16 => 16
  | .i32 => 32
  | .i64 => 64
  | .i128 => 128

/-- Modelled from the spec: the bit width the type-layout query reports for an
unsigned integer type. -/
def uint_bits : UintTy → Nat
  | .usize => 64
  | .u8 => 8
  | .u16 => 16
  | .u32 => 32
  | .u64 => 64
  | .u128 => 128

/-- Two's-complement reinterpretation of an `i128` value as a `u128`. -/
def toU128 (i : Int) : Nat := (i % (2 : Int) ^ 128).toNat

/-- Sign-extend the low `bits` bits of an integer, as `(u << amt) >> amt`
does on `i128` with `amt = 128 - bits`. -/
def sextBits (bits : Nat) (u : Int) : Int :=
  let low := u % (2 : Int) ^ bits
  if low < (2 : Int) ^ (bits - 1) then low else low - (2 : Int) ^ bits

/-- Modelled from the spec: `clippy_lints/src/utils`' `unsext` (not under
src/) — the signed all-ones pattern for a width, i.e. the value sign-extended
to the evaluator's 128-bit comparison representation and reinterpreted
unsigned. -/
def unsext (ity : IntTy) (u : Int) : Nat := toU128 (sextBits (int_bits ity) u)

/-- Modelled from the spec: `clippy_lints/src/utils`' `clip` (not under
src/) — truncate a `u128` value to the width of an unsigned type, so that
`clip uty (2^128 - 1)` is the `(1 << N) - 1` mask. -/
def clip (uty : UintTy) (u : Nat) : Nat := u % 2 ^ uint_bits uty

/-- The integer-type classification `cx.tables.expr_ty(e).sty` is matched
against: a signed type, an unsigned type, or anything else. -/
inductive TySty where
  | int (ity : IntTy)
  | uint (uty : UintTy)
  | other
  deriving DecidableEq, Repr

/-- The slice of `Constant` the detector looks at: `Constant::Int(u128)` or
any other (non-integer) constant. -/
inductive Constant where
  | int (v : Nat)
  | other
  deriving DecidableEq, Repr

/-- Binary operator tags of `rustc::hir::BinOpKind`. -/
inductive BinOpKind where
  | add | sub | mul | div | rem
  | and | or
  | bitXor | bitAnd | bitOr
  | shl | shr
  | eq | lt | le | ne | ge | gt
  deriving DecidableEq, Repr

/-- Expressions as the detector sees them: a binary node (with its span and
two operand subtrees) or any other node.  Spans are abstract tokens. -/
inductive Expr where
  | binary (span : Nat) (op : BinOpKind) (left right : Expr)
  | other (span : Nat)
  deriving DecidableEq, Repr

/-- The span of an expression (`e.span`). -/
def Expr.span : Expr → Nat
  | .binary sp _ _ _ => sp
  | .other sp => sp

/-- The read-only collaborator context: constant evaluator, type query,
macro-provenance test and source-snippet lookup, as oracle functions. -/
structure Ctx where
  constant_simple : Expr → Option Constant
  expr_ty : Expr → TySty
  is_generated : Nat → Bool
  source_text : Nat → Option String

/-- `snippet(cx, span, default)`: the source text of a span, or the given
placeholder when none is available. -/
def snippet (cx : Ctx) (sp : Nat) (dflt : String) : String :=
  (cx.source_text sp).getD dflt

/-- A diagnostic handed to `span_lint`: lint id, anchor span, message. -/
structure Diagnostic where
  lint : String
  span : Nat
  msg : String
  deriving DecidableEq, Repr

/-- The diagnostic `check` builds: anchored at `span`, with the message
naming the snippet of the surviving operand's span `arg`. -/
def mkDiag (cx : Ctx) (span arg : Nat) : Diagnostic :=
  { lint := "identity_op"
    span := span
    msg := "the operation is ineffective. Consider reducing it to `"
             ++ snippet cx arg ".." ++ "`" }

/-- The `match m` in `check`: whether the folded constant equals the target,
`none` for the `unreachable!()` arm. -/
def identityCond (v chk : Nat) (m : Int) : Option Bool :=
  if m = 0 then some (decide (v = 0))
  else if m = -1 then some (decide (v = chk))
  else if m = 1 then some (decide (v = 1))
  else none

/-- Tail of `check` after the all-ones value `chk` is known: dispatch on the
target marker and emit on match; `none` models the `unreachable!()` panic. -/
def condResult (cx : Ctx) (v chk : Nat) (m : Int) (span arg : Nat) :
    Option (List Diagnostic) :=
  match identityCond v chk m with
  | none => none
  | some true => some [mkDiag cx span arg]
  | some false => some []

/-- The per-side `check` of identity_op.rs: fold the operand, look up its
type (returning early when it is not an integer type), compute the
width-dependent comparison value, and emit on match. -/
def check (cx : Ctx) (e : Expr) (m : Int) (span arg : Nat) :
    Option (List Diagnostic) :=
  match cx.constant_simple e with
  | some (.int v) =>
    match cx.expr_ty e with
    | .int ity => condResult cx v (unsext ity (-1)) m span arg
    | .uint uty => condResult cx v (clip uty (2 ^ 128 - 1)) m span arg
    | .other => some []
  | _ => some []

/-- Sequence two per-side results, accumulating their diagnostics in order
(a panic in either side propagates). -/
def combine2 (a b : Option (List Diagnostic)) : Option (List Diagnostic) :=
  match a with
  | none => none
  | some x =>
    match b with
    | none => none
    | some y => some (x ++ y)

/-- `IdentityOp::check_expr`: suppress macro-expanded spans, then dispatch on
the operator, checking the sides the operator's rule demands. -/
def check_expr (cx : Ctx) (e : Expr) : Option (List Diagnostic) :=
  if cx.is_generated e.span then some []
  else
    match e with
    | .binary sp op l r =>
      match op with
      | .add | .bitOr | .bitXor =>
        combine2 (check cx l 0 sp r.span) (check cx r 0 sp l.span)
      | .shl | .shr | .sub => check cx r 0 sp l.span
      | .mul =>
        combine2 (check cx l 1 sp r.span) (check cx r 1 sp l.span)
      | .div => check cx r 1 sp l.span
      | .bitAnd =>
        combine2 (check cx l (-1) sp r.span) (check cx r (-1) sp l.span)
      | _ => some []
    | _ => some []

/-- Whether a type classification is a (signed or unsigned) integer type. -/
def TySty.isIntegral : TySty → Bool
  | .int _ => true
  | .uint _ => true
  | .other => false

/-- Which operand position a rule checks. -/
inductive Side where
  | left | right
  deriving DecidableEq, Repr

/-- The spec's operator table (§4.1), written from the spec's words: for each
operator, the list of (side to examine, identity-target marker) pairs; an
empty list means no side is checked. -/
def identityRule : BinOpKind → List (Side × Int)
  | .add => [(.left, 0), (.right, 0)]
  | .bitOr => [(.left, 0), (.right, 0)]
  | .bitXor => [(.left, 0), (.right, 0)]
  | .sub => [(.right, 0)]
  | .shl => [(.right, 0)]
  | .shr => [(.right, 0)]
  | .mul => [(.left, 1), (.right, 1)]
  | .div => [(.right, 1)]
  | .bitAnd => [(.left, -1), (.right, -1)]
  | _ => []

/-- Run one table entry: examine the named side, passing the other side's
span as the suggested replacement. -/
def checkSide (cx : Ctx) (sp : Nat) (l r : Expr) : Side × Int →
    Option (List Diagnostic)
  | (.left, m) => check cx l m sp r.span
  | (.right, m) => check cx r m sp l.span

/-- Run every entry of a rule in order, concatenating diagnostics. -/
def runRule (cx : Ctx) (sp : Nat) (l r : Expr) :
    List (Side × Int) → Option (List Diagnostic)
  | [] => some []
  | s :: rest => combine2 (checkSide cx sp l r s) (runRule cx sp l r rest)

/-- The spec-worded detector (§4.2): suppress macro spans, look up the
operator's rule in the table, and run each listed side independently. -/
def detectSpec (cx : Ctx) (e : Expr) : Option (List Diagnostic) :=
  if cx.is_generated e.span then some []
  else
    match e with
    | .binary sp op l r => runRule cx sp l r (identityRule op)
    | .other _ => some []

/-- The emission condition of the per-side `check`, read off the source as a
Boolean: the operand constant-folds to an integer, its type resolves to an
integer type, and the folded value equals the identity value the marker `m`
selects (the `unreachable!()` arm contributes `false`, which `check` with an
in-range marker never hits). -/
def sideMatches (cx : Ctx) (x : Expr) (m : Int) : Bool :=
  match cx.constant_simple x with
  | some (.int v) =>
    match cx.expr_ty x with
    | .int ity => (identityCond v (unsext ity (-1)) m).getD false
    | .uint uty => (identityCond v (clip uty (2 ^ 128 - 1)) m).getD false
    | .other => false
  | _ => false

/-- The identity-target marker `check_expr` passes to `check` for each
operator that has a rule (`none` for the no-op operators). -/
def targetOf : BinOpKind → Option Int
  | .add | .bitOr | .bitXor | .sub | .shl | .shr => some 0
  | .mul | .div => some 1
  | .bitAnd => some (-1)
  | _ => none

/-- The lint-pass value: a fieldless struct (`pub struct IdentityOp;`), so it
carries no mutable state between invocations. -/
structure IdentityOp where
  deriving DecidableEq, Repr

/-- One `check_expr` invocation as the traversal driver sees it: the pass
value threads through (unchanged, since the struct has no fields) and the
diagnostics are produced. -/
def checkExprPass (s : IdentityOp) (cx : Ctx) (e : Expr) :
    IdentityOp × Option (List Diagnostic) :=
  (s, check_expr cx e)

/-- The traversal driver: visit every node of the expression tree, invoking
the pass at each one and threading the pass state through. -/
def visit (cx : Ctx) (s : IdentityOp) : Expr → IdentityOp × Option (List Diagnostic)
  | e@(.binary _ _ l r) =>
    let p := checkExprPass s cx e
    let pl := visit cx p.1 l
    let pr := visit cx pl.1 r
    (pr.1, combine2 p.2 (combine2 pl.2 pr.2))
  | e@(.other _) => checkExprPass s cx e

/-! Concrete fixtures used by witnesses and counterexamples. -/

/-- A non-foldable operand (think: a variable `x`), span 1. -/
def xOp : Expr := Expr.other 1

/-- A foldable literal operand, span 2. -/
def litOp : Expr := Expr.other 2

/-- Context where `litOp` folds to the integer 0 of type `i32`, `xOp` does
not fold, and span 1 carries the source text "x". -/
def cxZ : Ctx where
  constant_simple := fun e => if e = litOp then some (.int 0) else none
  expr_ty := fun e => if e = litOp then .int .i32 else .other
  is_generated := fun _ => false
  source_text := fun sp => if sp = 1 then some "x" else none

/-- Operands for the bitwise-AND fixtures: a signed-32 all-ones constant,
an unsigned-8 255 constant and an unsigned-16 255 constant. -/
def eI32 : Expr := Expr.other 3

/-- Unsigned 8-bit constant operand. -/
def eU8 : Expr := Expr.other 4

/-- Unsigned 16-bit constant operand. -/
def eU16 : Expr := Expr.other 5

/-- Context for the bitwise-AND fixtures: `eI32` folds to the sign-extended
all-ones pattern (`-1` as stored in the 128-bit comparison representation),
`eU8` and `eU16` both fold to 255, with types `i32`, `u8`, `u16`. -/
def cxAnd : Ctx where
  constant_simple := fun e =>
    if e = eI32 then some (.int (2 ^ 128 - 1))
    else if e = eU8 then some (.int 255)
    else if e = eU16 then some (.int 255)
    else none
  expr_ty := fun e =>
    if e = eI32 then .int .i32
    else if e = eU8 then .uint .u8
    else if e = eU16 then .uint .u16
    else .other
  is_generated := fun _ => false
  source_text := fun _ => none

/-- Context where every operand folds to integer 0 of type `i32` — the
`0 | 0` scenario. -/
def cxBoth : Ctx where
  constant_simple := fun _ => some (.int 0)
  expr_ty := fun _ => .int .i32
  is_generated := fun _ => false
  source_text := fun _ => none

/-- Context where every operand folds to integer 1 of type `i32` — the
`1 * 1` scenario. -/
def cxOne : Ctx where
  constant_simple := fun _ => some (.int 1)
  expr_ty := fun _ => .int .i32
  is_generated := fun _ => false
  source_text := fun _ => none

/-- Context identical to `cxBoth` except every span is reported as
macro-expanded. -/
def cxMacro : Ctx where
  constant_simple := fun _ => some (.int 0)
  expr_ty := fun _ => .int .i32
  is_generated := fun _ => true
  source_text := fun _ => none

/-- Operand that folds to 0 but whose type does not resolve to an integer
type. -/
def eUnty : Expr := Expr.other 9

/-- Context where `eUnty` folds to integer 0 yet its type is unresolved
(neither signed nor unsigned integer). -/
def cxUnty : Ctx where
  constant_simple := fun e => if e = eUnty then some (.int 0) else none
  expr_ty := fun _ => .other
  is_generated := fun _ => false
  source_text := fun _ => none

/-! Helper lemmas shared by several claims. -/

theorem combine2_nil_left (b : Option (List Diagnostic)) :
    combine2 (some []) b = b := by
  cases b <;> rfl

theorem combine2_nil_right (a : Option (List Diagnostic)) :
    combine2 a (some []) = a := by
  cases a with
  | none => rfl
  | some x => simp [combine2]

theorem combine2_isSome (a b : Option (List Diagnostic)) :
    (combine2 a b).isSome = (a.isSome && b.isSome) := by
  cases a <;> cases b <;> rfl

theorem combine2_eq_some (a b : Option (List Diagnostic)) (ds : List Diagnostic)
    (h : combine2 a b = some ds) :
    ∃ x y, a = some x ∧ b = some y ∧ ds = x ++ y := by
  cases a with
  | none => simp [combine2] at h
  | some x =>
    cases b with
    | none => simp [combine2] at h
    | some y =>
      refine ⟨x, y, rfl, rfl, ?_⟩
      simpa [combine2] using h.symm

theorem identityCond_zero (v chk : Nat) :
    identityCond v chk 0 = some (decide (v = 0)) := by
  simp [identityCond]

theorem identityCond_one (v chk : Nat) :
    identityCond v chk 1 = some (decide (v = 1)) := by
  norm_num [identityCond]

theorem identityCond_neg_one (v chk : Nat) :
    identityCond v chk (-1) = some (decide (v = chk)) := by
  norm_num [identityCond]

theorem condResult_target (cx : Ctx) (v chk t : Nat) (m : Int) (sp arg : Nat)
    (h : identityCond v chk m = some (decide (v = t))) :
    condResult cx v chk m sp arg =
      some (if v = t then [mkDiag cx sp arg] else []) := by
  unfold condResult
  rw [h]
  by_cases hv : v = t
  · simp [hv]
  · simp [hv]

theorem condResult_cases (cx : Ctx) (v chk : Nat) (m : Int) (sp arg : Nat)
    (ds : List Diagnostic) (h : condResult cx v chk m sp arg = some ds) :
    ds = [] ∨ ds = [mkDiag cx sp arg] := by
  unfold condResult at h
  split at h
  · exact Option.noConfusion h
  · exact Or.inr (Option.some.inj h).symm
  · exact Or.inl (Option.some.inj h).symm

theorem condResult_isSome (cx : Ctx) (v chk : Nat) (m : Int) (sp arg : Nat)
    (hm : m = 0 ∨ m = 1 ∨ m = -1) :
    (condResult cx v chk m sp arg).isSome = true := by
  have h : ∃ b, identityCond v chk m = some b := by
    rcases hm with rfl | rfl | rfl
    · exact ⟨_, identityCond_zero v chk⟩
    · exact ⟨_, identityCond_one v chk⟩
    · exact ⟨_, identityCond_neg_one v chk⟩
  obtain ⟨b, hb⟩ := h
  unfold condResult
  rw [hb]
  cases b <;> rfl

theorem check_eq_condResult_int (cx : Ctx) (e : Expr) (v : Nat) (ity : IntTy)
    (m : Int) (sp arg : Nat)
    (hc : cx.constant_simple e = some (Constant.int v))
    (ht : cx.expr_ty e = TySty.int ity) :
    check cx e m sp arg = condResult cx v (unsext ity (-1)) m sp arg := by
  unfold check
  rw [hc, ht]

theorem check_eq_condResult_uint (cx : Ctx) (e : Expr) (v : Nat) (uty : UintTy)
    (m : Int) (sp arg : Nat)
    (hc : cx.constant_simple e = some (Constant.int v))
    (ht : cx.expr_ty e = TySty.uint uty) :
    check cx e m sp arg = condResult cx v (clip uty (2 ^ 128 - 1)) m sp arg := by
  unfold check
  rw [hc, ht]

theorem check_cases (cx : Ctx) (e : Expr) (m : Int) (sp arg : Nat)
    (ds : List Diagnostic) (h : check cx e m sp arg = some ds) :
    ds = [] ∨ ds = [mkDiag cx sp arg] := by
  unfold check at h
  split at h
  · split at h
    · exact condResult_cases _ _ _ _ _ _ _ h
    · exact condResult_cases _ _ _ _ _ _ _ h
    · exact Or.inl (Option.some.inj h).symm
  · exact Or.inl (Option.some.inj h).symm

theorem mem_check_diag (cx : Ctx) (x : Expr) (m : Int) (sp arg : Nat)
    (ds : List Diagnostic) (d : Diagnostic)
    (h : check cx x m sp arg = some ds) (hd : d ∈ ds) :
    d = mkDiag cx sp arg := by
  rcases check_cases cx x m sp arg ds h with h0 | h1
  · subst h0; simp at hd
  · subst h1; simpa using hd

theorem mem_combine2_diag (cx : Ctx) (l r : Expr) (m1 m2 : Int) (sp : Nat)
    (ds : List Diagnostic) (d : Diagnostic)
    (h : combine2 (check cx l m1 sp r.span) (check cx r m2 sp l.span) = some ds)
    (hd : d ∈ ds) :
    d = mkDiag cx sp l.span ∨ d = mkDiag cx sp r.span := by
  obtain ⟨x, y, hx, hy, rfl⟩ := combine2_eq_some _ _ _ h
  rcases List.mem_append.mp hd with hmem | hmem
  · exact Or.inr (mem_check_diag cx l m1 sp r.span x d hx hmem)
  · exact Or.inl (mem_check_diag cx r m2 sp l.span y d hy hmem)

theorem check_isSome (cx : Ctx) (e : Expr) (m : Int) (sp arg : Nat)
    (hm : m = 0 ∨ m = 1 ∨ m = -1) :
    (check cx e m sp arg).isSome = true := by
  unfold check
  cases hc : cx.constant_simple e with
  | none => rfl
  | some c =>
    cases c with
    | other => rfl
    | int v =>
      cases ht : cx.expr_ty e with
      | int ity => exact condResult_isSome cx v _ m sp arg hm
      | uint uty => exact condResult_isSome cx v _ m sp arg hm
      | other => rfl

theorem unsext_neg_one (ity : IntTy) : unsext ity (-1) = 2 ^ 128 - 1 := by
  cases ity <;> decide

theorem clip_allones (uty : UintTy) :
    clip uty (2 ^ 128 - 1) = 2 ^ uint_bits uty - 1 := by
  cases uty <;> decide

theorem check_zero (cx : Ctx) (e : Expr) (v : Nat) (sp arg : Nat)
    (hc : cx.constant_simple e = some (Constant.int v))
    (ht : (cx.expr_ty e).isIntegral = true) :
    check cx e 0 sp arg = some (if v = 0 then [mkDiag cx sp arg] else []) := by
  cases hty : cx.expr_ty e with
  | int ity =>
    rw [check_eq_condResult_int cx e v ity 0 sp arg hc hty]
    exact condResult_target cx v _ 0 0 sp arg (identityCond_zero v _)
  | uint uty =>
    rw [check_eq_condResult_uint cx e v uty 0 sp arg hc hty]
    exact condResult_target cx v _ 0 0 sp arg (identityCond_zero v _)
  | other => rw [hty] at ht; simp [TySty.isIntegral] at ht

theorem check_one (cx : Ctx) (e : Expr) (v : Nat) (sp arg : Nat)
    (hc : cx.constant_simple e = some (Constant.int v))
    (ht : (cx.expr_ty e).isIntegral = true) :
    check cx e 1 sp arg = some (if v = 1 then [mkDiag cx sp arg] else []) := by
  cases hty : cx.expr_ty e with
  | int ity =>
    rw [check_eq_condResult_int cx e v ity 1 sp arg hc hty]
    exact condResult_target cx v _ 1 1 sp arg (identityCond_one v _)
  | uint uty =>
    rw [check_eq_condResult_uint cx e v uty 1 sp arg hc hty]
    exact condResult_target cx v _ 1 1 sp arg (identityCond_one v _)
  | other => rw [hty] at ht; simp [TySty.isIntegral] at ht

theorem check_expr_bitOr (cx : Ctx) (sp : Nat) (l r : Expr)
    (hm : cx.is_generated sp = false) :
    check_expr cx (Expr.binary sp BinOpKind.bitOr l r) =
      combine2 (check cx l 0 sp r.span) (check cx r 0 sp l.span) := by
  unfold check_expr
  simp only [Expr.span]
  rw [hm]
  rfl

theorem check_expr_add (cx : Ctx) (sp : Nat) (l r : Expr)
    (hm : cx.is_generated sp = false) :
    check_expr cx (Expr.binary sp BinOpKind.add l r) =
      combine2 (check cx l 0 sp r.span) (check cx r 0 sp l.span) := by
  unfold check_expr
  simp only [Expr.span]
  rw [hm]
  rfl

theorem check_nofold (cx : Ctx) (x : Expr) (m : Int) (sp arg : Nat)
    (hc : cx.constant_simple x = none) :
    check cx x m sp arg = some [] := by
  unfold check
  rw [hc]

theorem check_nonint_const (cx : Ctx) (x : Expr) (m : Int) (sp arg : Nat)
    (hc : cx.constant_simple x = some Constant.other) :
    check cx x m sp arg = some [] := by
  unfold check
  rw [hc]

theorem check_ty_unresolved (cx : Ctx) (x : Expr) (v : Nat) (m : Int)
    (sp arg : Nat) (hc : cx.constant_simple x = some (Constant.int v))
    (ht : cx.expr_ty x = TySty.other) :
    check cx x m sp arg = some [] := by
  unfold check
  rw [hc, ht]

theorem sideMatches_int (cx : Ctx) (x : Expr) (v : Nat) (ity : IntTy) (m : Int)
    (hc : cx.constant_simple x = some (Constant.int v))
    (ht : cx.expr_ty x = TySty.int ity) :
    sideMatches cx x m = (identityCond v (unsext ity (-1)) m).getD false := by
  unfold sideMatches
  rw [hc, ht]

theorem sideMatches_uint (cx : Ctx) (x : Expr) (v : Nat) (uty : UintTy) (m : Int)
    (hc : cx.constant_simple x = some (Constant.int v))
    (ht : cx.expr_ty x = TySty.uint uty) :
    sideMatches cx x m =
      (identityCond v (clip uty (2 ^ 128 - 1)) m).getD false := by
  unfold sideMatches
  rw [hc, ht]

theorem sideMatches_unresolved (cx : Ctx) (x : Expr) (v : Nat) (m : Int)
    (hc : cx.constant_simple x = some (Constant.int v))
    (ht : cx.expr_ty x = TySty.other) :
    sideMatches cx x m = false := by
  unfold sideMatches
  rw [hc, ht]

theorem condResult_mem (cx : Ctx) (v chk : Nat) (m : Int) (sp arg : Nat)
    (ds : List Diagnostic) (d : Diagnostic)
    (h : condResult cx v chk m sp arg = some ds) (hd : d ∈ ds) :
    (identityCond v chk m).getD false = true ∧ d = mkDiag cx sp arg := by
  unfold condResult at h
  cases hic : identityCond v chk m with
  | none =>
    rw [hic] at h
    simp at h
  | some b =>
    rw [hic] at h
    cases b
    · have h3 : ([] : List Diagnostic) = ds := Option.some.inj h
      subst h3
      simp at hd
    · have h3 : [mkDiag cx sp arg] = ds := Option.some.inj h
      subst h3
      simp at hd
      exact ⟨rfl, hd⟩

theorem check_mem_match (cx : Ctx) (x : Expr) (m : Int) (sp arg : Nat)
    (ds : List Diagnostic) (d : Diagnostic)
    (h : check cx x m sp arg = some ds) (hd : d ∈ ds) :
    sideMatches cx x m = true ∧ d = mkDiag cx sp arg := by
  cases hc : cx.constant_simple x with
  | none =>
    rw [check_nofold cx x m sp arg hc] at h
    have h3 : ([] : List Diagnostic) = ds := Option.some.inj h
    subst h3
    simp at hd
  | some c =>
    cases c with
    | other =>
      rw [check_nonint_const cx x m sp arg hc] at h
      have h3 : ([] : List Diagnostic) = ds := Option.some.inj h
      subst h3
      simp at hd
    | int v =>
      cases hty : cx.expr_ty x with
      | other =>
        rw [check_ty_unresolved cx x v m sp arg hc hty] at h
        have h3 : ([] : List Diagnostic) = ds := Option.some.inj h
        subst h3
        simp at hd
      | int ity =>
        rw [check_eq_condResult_int cx x v ity m sp arg hc hty] at h
        obtain ⟨hb, hdq⟩ := condResult_mem cx v _ m sp arg ds d h hd
        rw [sideMatches_int cx x v ity m hc hty]
        exact ⟨hb, hdq⟩
      | uint uty =>
        rw [check_eq_condResult_uint cx x v uty m sp arg hc hty] at h
        obtain ⟨hb, hdq⟩ := condResult_mem cx v _ m sp arg ds d h hd
        rw [sideMatches_uint cx x v uty m hc hty]
        exact ⟨hb, hdq⟩

theorem check_of_sideMatches (cx : Ctx) (x : Expr) (m : Int) (sp arg : Nat)
    (hs : sideMatches cx x m = true) :
    check cx x m sp arg = some [mkDiag cx sp arg] := by
  cases hc : cx.constant_simple x with
  | none =>
    unfold sideMatches at hs
    rw [hc] at hs
    simp at hs
  | some c =>
    cases c with
    | other =>
      unfold sideMatches at hs
      rw [hc] at hs
      simp at hs
    | int v =>
      cases hty : cx.expr_ty x with
      | other =>
        rw [sideMatches_unresolved cx x v m hc hty] at hs
        simp at hs
      | int ity =>
        rw [sideMatches_int cx x v ity m hc hty] at hs
        rw [check_eq_condResult_int cx x v ity m sp arg hc hty]
        unfold condResult
        cases hic : identityCond v (unsext ity (-1)) m with
        | none =>
          rw [hic] at hs
          simp at hs
        | some b =>
          rw [hic] at hs
          cases b
          · simp at hs
          · rfl
      | uint uty =>
        rw [sideMatches_uint cx x v uty m hc hty] at hs
        rw [check_eq_condResult_uint cx x v uty m sp arg hc hty]
        unfold condResult
        cases hic : identityCond v (clip uty (2 ^ 128 - 1)) m with
        | none =>
          rw [hic] at hs
          simp at hs
        | some b =>
          rw [hic] at hs
          cases b
          · simp at hs
          · rfl

theorem mem_combine2_match (cx : Ctx) (l r : Expr) (m : Int) (sp : Nat)
    (ds : List Diagnostic) (d : Diagnostic)
    (h : combine2 (check cx l m sp r.span) (check cx r m sp l.span) = some ds)
    (hd : d ∈ ds) :
    (sideMatches cx l m = true ∧ d = mkDiag cx sp r.span) ∨
    (sideMatches cx r m = true ∧ d = mkDiag cx sp l.span) := by
  obtain ⟨x, y, hx, hy, rfl⟩ := combine2_eq_some _ _ _ h
  rcases List.mem_append.mp hd with hm2 | hm2
  · exact Or.inl (check_mem_match cx l m sp r.span x d hx hm2)
  · exact Or.inr (check_mem_match cx r m sp l.span y d hy hm2)

theorem check_expr_comm (cx : Ctx) (sp : Nat) (op : BinOpKind) (l r : Expr)
    (m : Int) (hm : cx.is_generated sp = false)
    (hop : (op = BinOpKind.add ∧ m = 0) ∨ (op = BinOpKind.bitOr ∧ m = 0) ∨
           (op = BinOpKind.bitXor ∧ m = 0) ∨ (op = BinOpKind.mul ∧ m = 1) ∨
           (op = BinOpKind.bitAnd ∧ m = -1)) :
    check_expr cx (Expr.binary sp op l r) =
      combine2 (check cx l m sp r.span) (check cx r m sp l.span) := by
  rcases hop with ⟨rfl, rfl⟩ | ⟨rfl, rfl⟩ | ⟨rfl, rfl⟩ | ⟨rfl, rfl⟩ | ⟨rfl, rfl⟩ <;>
    (unfold check_expr
     simp only [Expr.span]
     rw [hm]
     rfl)

/-! The claims. -/

/-- C1: for every binary expression the sides checked and the identity
targets follow the fixed operator table — add/bit-or/bit-xor check both
operands against zero, sub/shl/shr check only the right operand against
zero, mul checks both against one, div checks only the right operand against
one, bit-and checks both against the width-dependent all-ones marker, and
any other operator checks nothing: `check_expr` coincides with the
table-driven detector `detectSpec` on every input. -/
theorem C1_operator_table (cx : Ctx) (e : Expr) :
    check_expr cx e = detectSpec cx e := by
  cases e with
  | other sp => rfl
  | binary sp op l r =>
    unfold check_expr detectSpec
    by_cases hm : cx.is_generated (Expr.binary sp op l r).span = true
    · rw [if_pos hm, if_pos hm]
    · rw [if_neg hm, if_neg hm]
      cases op <;> simp [identityRule, runRule, checkSide, combine2_nil_right]

/-- C2: for bitwise AND the all-ones comparison value is recomputed from the
checked operand's own declared type — for any signed type it is the
sign-extended all-ones pattern as stored in the 128-bit comparison
representation (`2^128 - 1`), and for an unsigned width-N type it is
`2^N - 1`; the diagnostic is emitted exactly when the folded constant equals
that per-type value. -/
theorem C2_bitand_all_ones (cx : Ctx) (e : Expr) (sp arg : Nat) (v : Nat)
    (hc : cx.constant_simple e = some (Constant.int v)) :
    (∀ ity, cx.expr_ty e = TySty.int ity →
        check cx e (-1) sp arg =
          some (if v = 2 ^ 128 - 1 then [mkDiag cx sp arg] else [])) ∧
    (∀ uty, cx.expr_ty e = TySty.uint uty →
        check cx e (-1) sp arg =
          some (if v = 2 ^ uint_bits uty - 1 then [mkDiag cx sp arg] else [])) := by
  constructor
  · intro ity ht
    rw [check_eq_condResult_int cx e v ity (-1) sp arg hc ht, unsext_neg_one]
    exact condResult_target cx v _ _ (-1) sp arg (identityCond_neg_one v _)
  · intro uty ht
    rw [check_eq_condResult_uint cx e v uty (-1) sp arg hc ht, clip_allones]
    exact condResult_target cx v _ _ (-1) sp arg (identityCond_neg_one v _)

/-- Witness for C2: `x & -1` on a signed 32-bit operand and `x & 0xFF` on an
unsigned 8-bit operand each emit the diagnostic, while `x & 0xFF` on an
unsigned 16-bit operand emits none. -/
theorem C2_bitand_all_ones_witness :
    check cxAnd eI32 (-1) 0 1 = some [mkDiag cxAnd 0 1] ∧
    check cxAnd eU8 (-1) 0 1 = some [mkDiag cxAnd 0 1] ∧
    check cxAnd eU16 (-1) 0 1 = some [] := by
  refine ⟨?_, ?_, ?_⟩
  · have h := (C2_bitand_all_ones cxAnd eI32 0 1 (2 ^ 128 - 1) rfl).1 IntTy.i32 rfl
    rwa [if_pos rfl] at h
  · have h := (C2_bitand_all_ones cxAnd eU8 0 1 255 rfl).2 UintTy.u8 rfl
    rwa [if_pos (by norm_num [uint_bits])] at h
  · have h := (C2_bitand_all_ones cxAnd eU16 0 1 255 rfl).2 UintTy.u16 rfl
    rwa [if_neg (by norm_num [uint_bits])] at h

/-- C3 counterexample: the claim says that for a zero target an operand that
constant-folds to 0 is reported even when its integer type cannot be
resolved; in the code the type is looked up first, and `0 + x` with the zero
operand's type unresolved produces no diagnostic at all. -/
theorem C3_zero_one_counterexample :
    cxUnty.constant_simple eUnty = some (Constant.int 0) ∧
    cxUnty.expr_ty eUnty = TySty.other ∧
    check_expr cxUnty (Expr.binary 5 BinOpKind.add eUnty xOp) = some [] := by
  refine ⟨by decide, by decide, by decide⟩

/-- C3 amended: for a zero or one target the emission decision compares the
folded constant directly with the literal target — no width- or
signedness-dependent value enters — but the type lookup still happens first,
so the comparison is only reached when the operand's type resolves to some
integer type. -/
theorem C3_zero_one_amended (cx : Ctx) (e : Expr) (v : Nat) (sp arg : Nat)
    (hc : cx.constant_simple e = some (Constant.int v))
    (ht : (cx.expr_ty e).isIntegral = true) :
    check cx e 0 sp arg = some (if v = 0 then [mkDiag cx sp arg] else []) ∧
    check cx e 1 sp arg = some (if v = 1 then [mkDiag cx sp arg] else []) :=
  ⟨check_zero cx e v sp arg hc ht, check_one cx e v sp arg hc ht⟩

/-- Witness for the amended C3: a concrete zero-valued `i32` operand is
reported for the zero target and not for the one target. -/
theorem C3_zero_one_amended_witness :
    check cxZ litOp 0 0 1 = some (if (0 : Nat) = 0 then [mkDiag cxZ 0 1] else []) ∧
    check cxZ litOp 1 0 1 = some (if (0 : Nat) = 1 then [mkDiag cxZ 0 1] else []) :=
  C3_zero_one_amended cxZ litOp 0 0 1 rfl rfl

/-- C4: when the provenance oracle marks the expression's span as generated
by macro expansion, the detector returns no diagnostics, whatever the
operator and operands. -/
theorem C4_macro_suppressed (cx : Ctx) (e : Expr)
    (h : cx.is_generated e.span = true) :
    check_expr cx e = some [] := by
  unfold check_expr
  simp [h]

/-- Witness for C4: an `x + 0`-shaped expression whose operands would match
(both fold to 0 at type `i32`) produces nothing because its span is marked
as macro-generated. -/
theorem C4_macro_suppressed_witness :
    cxMacro.is_generated (Expr.binary 0 BinOpKind.add xOp litOp).span = true ∧
    check_expr cxMacro (Expr.binary 0 BinOpKind.add xOp litOp) = some [] :=
  ⟨rfl, C4_macro_suppressed cxMacro (Expr.binary 0 BinOpKind.add xOp litOp) rfl⟩

/-- C5: every diagnostic the detector emits for a binary expression is
anchored at the whole expression's span, carries the fixed lint id, and its
message is exactly the ineffective-operation template around the snippet of
the *other* (non-matched) operand's span — an operand that matched the
operator's identity target is the one dropped, and the surviving sibling's
snippet (".." when no source text is available) is what the message
suggests. -/
theorem C5_diag_anchor_and_message (cx : Ctx) (sp : Nat) (op : BinOpKind)
    (l r : Expr) (ds : List Diagnostic)
    (h : check_expr cx (Expr.binary sp op l r) = some ds) :
    ∀ d ∈ ds, d.lint = "identity_op" ∧ d.span = sp ∧
      ∃ m, targetOf op = some m ∧
        ((sideMatches cx l m = true ∧
            d.msg = "the operation is ineffective. Consider reducing it to `"
                      ++ snippet cx r.span ".." ++ "`") ∨
         (sideMatches cx r m = true ∧
            d.msg = "the operation is ineffective. Consider reducing it to `"
                      ++ snippet cx l.span ".." ++ "`")) := by
  intro d hd
  unfold check_expr at h
  by_cases hmac : cx.is_generated (Expr.binary sp op l r).span = true
  · rw [if_pos hmac] at h
    have h3 : ([] : List Diagnostic) = ds := Option.some.inj h
    subst h3
    simp at hd
  · rw [if_neg hmac] at h
    cases op with
    | add =>
      rcases mem_combine2_match cx l r 0 sp ds d h hd with ⟨hs, rfl⟩ | ⟨hs, rfl⟩
      · exact ⟨rfl, rfl, 0, rfl, Or.inl ⟨hs, rfl⟩⟩
      · exact ⟨rfl, rfl, 0, rfl, Or.inr ⟨hs, rfl⟩⟩
    | bitOr =>
      rcases mem_combine2_match cx l r 0 sp ds d h hd with ⟨hs, rfl⟩ | ⟨hs, rfl⟩
      · exact ⟨rfl, rfl, 0, rfl, Or.inl ⟨hs, rfl⟩⟩
      · exact ⟨rfl, rfl, 0, rfl, Or.inr ⟨hs, rfl⟩⟩
    | bitXor =>
      rcases mem_combine2_match cx l r 0 sp ds d h hd with ⟨hs, rfl⟩ | ⟨hs, rfl⟩
      · exact ⟨rfl, rfl, 0, rfl, Or.inl ⟨hs, rfl⟩⟩
      · exact ⟨rfl, rfl, 0, rfl, Or.inr ⟨hs, rfl⟩⟩
    | mul =>
      rcases mem_combine2_match cx l r 1 sp ds d h hd with ⟨hs, rfl⟩ | ⟨hs, rfl⟩
      · exact ⟨rfl, rfl, 1, rfl, Or.inl ⟨hs, rfl⟩⟩
      · exact ⟨rfl, rfl, 1, rfl, Or.inr ⟨hs, rfl⟩⟩
    | bitAnd =>
      rcases mem_combine2_match cx l r (-1) sp ds d h hd with ⟨hs, rfl⟩ | ⟨hs, rfl⟩
      · exact ⟨rfl, rfl, -1, rfl, Or.inl ⟨hs, rfl⟩⟩
      · exact ⟨rfl, rfl, -1, rfl, Or.inr ⟨hs, rfl⟩⟩
    | sub =>
      obtain ⟨hs, rfl⟩ := check_mem_match cx r 0 sp l.span ds d h hd
      exact ⟨rfl, rfl, 0, rfl, Or.inr ⟨hs, rfl⟩⟩
    | shl =>
      obtain ⟨hs, rfl⟩ := check_mem_match cx r 0 sp l.span ds d h hd
      exact ⟨rfl, rfl, 0, rfl, Or.inr ⟨hs, rfl⟩⟩
    | shr =>
      obtain ⟨hs, rfl⟩ := check_mem_match cx r 0 sp l.span ds d h hd
      exact ⟨rfl, rfl, 0, rfl, Or.inr ⟨hs, rfl⟩⟩
    | div =>
      obtain ⟨hs, rfl⟩ := check_mem_match cx r 1 sp l.span ds d h hd
      exact ⟨rfl, rfl, 1, rfl, Or.inr ⟨hs, rfl⟩⟩
    | rem =>
      have h3 : ([] : List Diagnostic) = ds := Option.some.inj h
      subst h3
      simp at hd
    | and =>
      have h3 : ([] : List Diagnostic) = ds := Option.some.inj h
      subst h3
      simp at hd
    | or =>
      have h3 : ([] : List Diagnostic) = ds := Option.some.inj h
      subst h3
      simp at hd
    | eq =>
      have h3 : ([] : List Diagnostic) = ds := Option.some.inj h
      subst h3
      simp at hd
    | lt =>
      have h3 : ([] : List Diagnostic) = ds := Option.some.inj h
      subst h3
      simp at hd
    | le =>
      have h3 : ([] : List Diagnostic) = ds := Option.some.inj h
      subst h3
      simp at hd
    | ne =>
      have h3 : ([] : List Diagnostic) = ds := Option.some.inj h
      subst h3
      simp at hd
    | ge =>
      have h3 : ([] : List Diagnostic) = ds := Option.some.inj h
      subst h3
      simp at hd
    | gt =>
      have h3 : ([] : List Diagnostic) = ds := Option.some.inj h
      subst h3
      simp at hd

/-- Witness for C5: the one diagnostic of a concrete `0 + x` expression is
anchored at the whole expression's span 0, and the matched side is the zero
operand while the message suggests the snippet of the sibling `x`. -/
theorem C5_diag_anchor_and_message_witness :
    (mkDiag cxZ 0 xOp.span).lint = "identity_op" ∧
    (mkDiag cxZ 0 xOp.span).span = 0 ∧
    ∃ m, targetOf BinOpKind.add = some m ∧
      ((sideMatches cxZ litOp m = true ∧
          (mkDiag cxZ 0 xOp.span).msg =
            "the operation is ineffective. Consider reducing it to `"
              ++ snippet cxZ xOp.span ".." ++ "`") ∨
       (sideMatches cxZ xOp m = true ∧
          (mkDiag cxZ 0 xOp.span).msg =
            "the operation is ineffective. Consider reducing it to `"
              ++ snippet cxZ litOp.span ".." ++ "`")) :=
  C5_diag_anchor_and_message cxZ 0 BinOpKind.add litOp xOp
    [mkDiag cxZ 0 xOp.span] (by decide) (mkDiag cxZ 0 xOp.span) (by simp)

/-- C6: for every commutative-rule operator (add, bitwise-or, bitwise-xor,
multiply, bitwise-and, each with its own identity marker) the two operand
positions are checked independently; when both operands match the identity,
exactly two diagnostics are emitted, one per matching side, with no
deduplication. -/
theorem C6_double_report (cx : Ctx) (sp : Nat) (op : BinOpKind) (l r : Expr)
    (m : Int) (hm : cx.is_generated sp = false)
    (hop : (op = BinOpKind.add ∧ m = 0) ∨ (op = BinOpKind.bitOr ∧ m = 0) ∨
           (op = BinOpKind.bitXor ∧ m = 0) ∨ (op = BinOpKind.mul ∧ m = 1) ∨
           (op = BinOpKind.bitAnd ∧ m = -1))
    (hl : sideMatches cx l m = true)
    (hr : sideMatches cx r m = true) :
    check_expr cx (Expr.binary sp op l r) =
      some [mkDiag cx sp r.span, mkDiag cx sp l.span] := by
  rw [check_expr_comm cx sp op l r m hm hop,
      check_of_sideMatches cx l m sp r.span hl,
      check_of_sideMatches cx r m sp l.span hr]
  rfl

/-- Witness for C6: concrete `0 | 0`, `1 * 1` and `-1 & -1` (signed 32-bit)
expressions each yield exactly two diagnostics, one per side. -/
theorem C6_double_report_witness :
    (check_expr cxBoth (Expr.binary 0 BinOpKind.bitOr litOp xOp) =
       some [mkDiag cxBoth 0 xOp.span, mkDiag cxBoth 0 litOp.span]) ∧
    (check_expr cxOne (Expr.binary 0 BinOpKind.mul litOp xOp) =
       some [mkDiag cxOne 0 xOp.span, mkDiag cxOne 0 litOp.span]) ∧
    (check_expr cxAnd (Expr.binary 0 BinOpKind.bitAnd eI32 eI32) =
       some [mkDiag cxAnd 0 eI32.span, mkDiag cxAnd 0 eI32.span]) :=
  ⟨C6_double_report cxBoth 0 BinOpKind.bitOr litOp xOp 0 rfl
      (Or.inr (Or.inl ⟨rfl, rfl⟩)) (by decide) (by decide),
   C6_double_report cxOne 0 BinOpKind.mul litOp xOp 1 rfl
      (Or.inr (Or.inr (Or.inr (Or.inl ⟨rfl, rfl⟩)))) (by decide) (by decide),
   C6_double_report cxAnd 0 BinOpKind.bitAnd eI32 eI32 (-1) rfl
      (Or.inr (Or.inr (Or.inr (Or.inr ⟨rfl, rfl⟩)))) (by decide) (by decide)⟩

/-- C7: a checked side whose operand the constant evaluator cannot reduce to
an integer constant emits nothing — whether the evaluator returns no
constant at all or a non-integer constant — and the sibling side's check is
unaffected: with a non-foldable left operand, `l + r` reduces exactly to the
right-hand side's check. -/
theorem C7_nonconstant_skip (cx : Ctx) :
    (∀ e m sp arg, cx.constant_simple e = none →
        check cx e m sp arg = some []) ∧
    (∀ e m sp arg, cx.constant_simple e = some Constant.other →
        check cx e m sp arg = some []) ∧
    (∀ sp l r, cx.is_generated sp = false → cx.constant_simple l = none →
        check_expr cx (Expr.binary sp BinOpKind.add l r) =
          check cx r 0 sp l.span) := by
  refine ⟨?_, ?_, ?_⟩
  · intro e m sp arg hc
    unfold check
    rw [hc]
  · intro e m sp arg hc
    unfold check
    rw [hc]
  · intro sp l r hm hc
    have h1 : check cx l 0 sp r.span = some [] := by
      unfold check
      rw [hc]
    rw [check_expr_add cx sp l r hm, h1, combine2_nil_left]

/-- Witness for C7: the non-foldable operand `x` emits nothing on its own,
and in `x + 0` the result is exactly the right-hand side's check. -/
theorem C7_nonconstant_skip_witness :
    cxZ.constant_simple xOp = none ∧
    check cxZ xOp 0 0 2 = some [] ∧
    check_expr cxZ (Expr.binary 0 BinOpKind.add xOp litOp) =
      check cxZ litOp 0 0 xOp.span :=
  ⟨rfl, (C7_nonconstant_skip cxZ).1 xOp 0 0 2 rfl,
    (C7_nonconstant_skip cxZ).2.2 0 xOp litOp rfl rfl⟩

/-- C8: the detector is total — on every expression and every collaborator
answer it returns a (possibly empty) diagnostic list and never reaches the
`unreachable!()` panic of `check`, because `check` is only invoked with a
target marker in \x7b0, 1, -1\x7d. -/
theorem C8_never_panics (cx : Ctx) (e : Expr) :
    (check_expr cx e).isSome = true := by
  unfold check_expr
  split
  · rfl
  · cases e with
    | other sp => rfl
    | binary sp op l r =>
      have c0l := check_isSome cx l 0 sp r.span (Or.inl rfl)
      have c0r := check_isSome cx r 0 sp l.span (Or.inl rfl)
      have c1l := check_isSome cx l 1 sp r.span (Or.inr (Or.inl rfl))
      have c1r := check_isSome cx r 1 sp l.span (Or.inr (Or.inl rfl))
      have cml := check_isSome cx l (-1) sp r.span (Or.inr (Or.inr rfl))
      have cmr := check_isSome cx r (-1) sp l.span (Or.inr (Or.inr rfl))
      cases op <;> simp [combine2_isSome, c0l, c0r, c1l, c1r, cml, cmr]

/-- C9: the detector is deterministic and stateless — the pass value is a
fieldless struct, so running the traversal a second time over the same tree
with the same collaborator answers, starting from the state the first run
left behind, produces exactly the same diagnostics. -/
theorem C9_idempotent (cx : Ctx) (s : IdentityOp) (e : Expr) :
    (visit cx (visit cx s e).1 e).2 = (visit cx s e).2 := by
  have hs : ∀ a b : IdentityOp, a = b := fun a b => by cases a; cases b; rfl
  rw [hs (visit cx s e).1 s]

/-- C10: for every checked side and every target marker, the operand's type
is looked up, and when it resolves to neither a signed nor an unsigned
integer type the side is skipped with no diagnostic — even when the operand
constant-folds to an integer equal to the target. -/
theorem C10_type_gate (cx : Ctx) (e : Expr) (m : Int) (sp arg : Nat)
    (ht : cx.expr_ty e = TySty.other) :
    check cx e m sp arg = some [] := by
  unfold check
  cases hc : cx.constant_simple e with
  | none => rfl
  | some c =>
    cases c with
    | other => rfl
    | int v => rw [ht]

/-- Witness for C10: an operand that folds to the target value 0 but whose
type is unresolved is skipped. -/
theorem C10_type_gate_witness :
    cxUnty.constant_simple eUnty = some (Constant.int 0) ∧
    check cxUnty eUnty 0 5 6 = some [] :=
  ⟨rfl, C10_type_gate cxUnty eUnty 0 5 6 rfl⟩

end IdentityOpLint
